import Mathlib

/-!
Verification of the Pix2Struct DocVQA glue code
(`src/pix2struct_base_run.py` and `src/app.py`).

The two Python files are thin orchestration: input validation
(`collect_inputs`), PDF page selection (`convert_pdf_to_image`), and a
batched call into the external HuggingFace model (`generate`,
`run_doc_vqa`).  We embed them shallowly:

* the filesystem (what `pdf2image.convert_from_path` and `PIL.Image.open`
  return for a given path) is an explicit `FileSystem` parameter;
* the external model and processor are abstract structures carrying the
  documented contract of the HuggingFace `generate`/`batch_decode` API
  (one output sequence per batch element; generated length capped by
  `max_new_tokens`); the page-image type `Img` is a type parameter;
* Python exceptions (IndexError from `images[page_no - 1]`, PIL /
  pdf2image decode failures) become the `Except PyError` monad;
* Python string helpers (`str.splitlines`, `str.strip`, `str.lower`,
  `os.path.splitext`, `pathlib.Path.suffix`) are translated to
  executable Lean functions over `List Char` (the ASCII / BMP fragment
  of their Unicode behaviour, which covers every boundary and
  whitespace character the code paths distinguish).

`load_model` (a network download of fixed weights) is external and not
modelled; `collect_inputs` always passes the already-loaded handles, so
the lazy-loading branch of `run_doc_vqa` is never taken in the
application and the embedding takes the model and processor as explicit
arguments.
-/

/-- Python exceptions that can escape the two source files.  `indexError`
is the `IndexError` raised by `images[page_no - 1]` in
`convert_pdf_to_image` (the failure the spec names `PageOutOfRangeError`);
`imageDecodeError` is a `PIL` failure from `Image.open` on a corrupt or
unreadable image; `pdfDecodeError` is a `pdf2image` failure from
`convert_from_path` on a corrupt or unreadable PDF. -/
inductive PyError : Type
  | indexError
  | imageDecodeError
  | pdfDecodeError
  deriving DecidableEq, Repr

/-- The filesystem as the two source files observe it.  `pdfPages p` is
what `pdf2image.convert_from_path p` renders: `some` of the list of all
page images, or `none` when the library raises on a corrupt / unreadable
PDF.  `openImage p` is what `PIL.Image.open p` decodes: `some` image, or
`none` when PIL raises on a corrupt / unreadable file. -/
structure FileSystem (Img : Type) where
  pdfPages : String → Option (List Img)
  openImage : String → Option Img

/-- Python list indexing `l[i]` for `i : Int`: a negative index counts
from the end (`l[-1]` is the last element); `none` models the
`IndexError` raised when the index is out of range on either side. -/
def pyGetElem {α : Type} (l : List α) (i : Int) : Option α :=
  let j : Int := if i < 0 then i + l.length else i
  if h : 0 ≤ j ∧ j < l.length then some (l.get ⟨j.toNat, by omega⟩) else none

/-- Embedding of `convert_pdf_to_image(filename, page_no)`: render all
pages with `convert_from_path` and return `images[page_no - 1]`
(Python indexing, so `IndexError` when out of range and negative
wrap-around otherwise). -/
def convert_pdf_to_image {Img : Type} (fs : FileSystem Img) (filename : String)
    (page_no : Int) : Except PyError Img :=
  match fs.pdfPages filename with
  | none => .error .pdfDecodeError
  | some images =>
    match pyGetElem images (page_no - 1) with
    | some img => .ok img
    | none => .error .indexError

/-- The keyword arguments of the single `model.generate(**inputs,
max_new_tokens=1028)` call: the processor-built batch of (image,
question) pairs, and the decoding-length cap. -/
structure GenRequest (Img : Type) where
  batch : List (Img × String)
  maxNewTokens : Nat

/-- The external Pix2Struct model, abstracted to its `generate` method.
`gen` maps a request to one predicted token sequence per batch element;
the two laws are the documented HuggingFace contract: the output batch
has the same size as the input batch, and each generated sequence is at
most `max_new_tokens` tokens long. -/
structure Model (Img : Type) where
  gen : GenRequest Img → List (List Nat)
  gen_length : ∀ r : GenRequest Img, (gen r).length = r.batch.length
  gen_max : ∀ (r : GenRequest Img) (s : List Nat), s ∈ gen r → s.length ≤ r.maxNewTokens

/-- The external Pix2Struct processor, abstracted to its decoding side:
`decodeOne` turns one predicted token sequence into answer text
(`skip_special_tokens=True` strips the model-internal tokens, so the
result is the bare answer).  `batch_decode` maps `decodeOne` over the
batch.  Its encoding side (`processor(images=..., text=...)`) pairs the
i-th image with the i-th question; that pairing is `List.zip` and is
embedded directly in `generate` below. -/
structure Processor where
  decodeOne : List Nat → String

/-- The batch built by `processor(images=[img for _ in range(len(questions))],
text=questions, ...)`: the same page image replicated once per question,
paired index-wise with the questions. -/
def buildInputs {Img : Type} (img : Img) (questions : List String) :
    List (Img × String) :=
  (List.replicate questions.length img).zip questions

/-- The full argument record of the `model.generate` call inside
`generate`: the replicated-image batch and the literal
`max_new_tokens=1028` from the source. -/
def generateRequest {Img : Type} (img : Img) (questions : List String) :
    GenRequest Img :=
  ⟨buildInputs img questions, 1028⟩

/-- Embedding of `generate(model, processor, img, questions)`: build the
batch, run `model.generate(**inputs, max_new_tokens=1028)`, decode each
prediction with `processor.batch_decode(..., skip_special_tokens=True)`,
and return `list(zip(questions, decoded))`. -/
def generate {Img : Type} (model : Model Img) (processor : Processor)
    (img : Img) (questions : List String) : List (String × String) :=
  let predictions := model.gen (generateRequest img questions)
  let decoded := predictions.map processor.decodeOne
  questions.zip decoded

/-- Last index of a character satisfying `p` in the remaining list, where
the head of the list sits at position `i`; `best` is the best index found
so far (`-1` when none).  This is Python's `str.rfind`. -/
def lastIndexAux (p : Char → Bool) : List Char → Int → Int → Int
  | [], _, best => best
  | c :: rest, i, best => lastIndexAux p rest (i + 1) (if p c then i else best)

/-- Embedding of `os.path.splitext` (POSIX, separator `/`): split off the
extension starting at the last dot of the final component, unless every
character of the final component before that dot is itself a dot (so the
leading dots of a hidden file such as `.bashrc` never start an
extension). -/
def splitext (p : String) : String × String :=
  let cs := p.data
  let sepIndex := lastIndexAux (fun c => c = '/') cs 0 (-1)
  let dotIndex := lastIndexAux (fun c => c = '.') cs 0 (-1)
  if sepIndex < dotIndex ∧
      ((cs.drop (sepIndex + 1).toNat).take (dotIndex - sepIndex - 1).toNat).any
        (fun c => c ≠ '.') then
    (⟨cs.take dotIndex.toNat⟩, ⟨cs.drop dotIndex.toNat⟩)
  else
    (p, "")

/-- The final component of a path as `pathlib.PurePath.name` computes it
for ordinary paths: strip trailing separators, then take everything
after the last remaining separator. -/
def pathName (p : String) : String :=
  let cs := (p.data.reverse.dropWhile (fun c => c = '/')).reverse
  ⟨(cs.reverse.takeWhile (fun c => c ≠ '/')).reverse⟩

/-- Embedding of `pathlib.Path(p).suffix`: the part of the final
component from its last dot on, provided that dot is neither the first
nor the last character of the component. -/
def pathSuffix (p : String) : String :=
  let name := (pathName p).data
  let i := lastIndexAux (fun c => c = '.') name 0 (-1)
  if 0 < i ∧ i < (name.length : Int) - 1 then ⟨name.drop i.toNat⟩ else ""

/-- Lowercase an ASCII letter; other characters unchanged.  This is the
fragment of Python `str.lower` relevant to file extensions. -/
def pyLowerChar (c : Char) : Char :=
  if 'A' ≤ c ∧ c ≤ 'Z' then Char.ofNat (c.toNat + 32) else c

/-- Embedding of `str.lower` (ASCII fragment). -/
def pyLower (s : String) : String :=
  ⟨s.data.map pyLowerChar⟩

/-- Characters Python `str.strip()` removes: the whitespace characters of
`str.isspace` (ASCII whitespace, the C1 separators, NEL, NBSP and the
two line/paragraph separators; other Unicode space code points are not
modelled). -/
def isPySpace (c : Char) : Bool :=
  c = ' ' || c = '\t' || c = '\n' || c = '\r' || c = '\x0b' || c = '\x0c' ||
  c = '\x1c' || c = '\x1d' || c = '\x1e' || c = '\x1f' || c = '\x85' ||
  c = '\xa0' || c = '\u2028' || c = '\u2029'

/-- Embedding of `str.strip()`: drop the whitespace prefix and suffix. -/
def pyStrip (s : String) : String :=
  ⟨((s.data.dropWhile isPySpace).reverse.dropWhile isPySpace).reverse⟩

/-- Line boundaries of Python `str.splitlines` (the documented list:
LF, CR, VT, FF, FS, GS, RS, NEL, LINE SEPARATOR, PARAGRAPH SEPARATOR;
CRLF is handled as a single boundary in `splitlinesList`). -/
def isLineBoundary (c : Char) : Bool :=
  c = '\n' || c = '\r' || c = '\x0b' || c = '\x0c' ||
  c = '\x1c' || c = '\x1d' || c = '\x1e' || c = '\x85' ||
  c = '\u2028' || c = '\u2029'

/-- Worker for `splitlines`: `acc` is the reversed current line.  A CRLF
pair ends one line; any other boundary character ends one line; a final
line without a terminator is kept, but a terminator at the end of the
string opens no empty extra line. -/
def splitlinesList : List Char → List Char → List String
  | [], acc => if acc = [] then [] else [⟨acc.reverse⟩]
  | '\r' :: '\n' :: rest, acc => (⟨acc.reverse⟩ : String) :: splitlinesList rest []
  | c :: rest, acc =>
    if isLineBoundary c then (⟨acc.reverse⟩ : String) :: splitlinesList rest []
    else splitlinesList rest (c :: acc)

/-- Embedding of `str.splitlines()`. -/
def splitlines (s : String) : List String :=
  splitlinesList s.data []

/-- The list comprehension
`[line.strip() for line in texts.splitlines() if line.strip()]` of
`collect_inputs`: strip every line, keep the non-empty results. -/
def processQuestions (texts : String) : List String :=
  ((splitlines texts).map pyStrip).filter (fun s => s ≠ "")

/-- The allow-list `allowed_extensions = [".pdf", ".png", ".jpg", ".jpeg"]`
of `collect_inputs`. -/
def allowed_extensions : List String :=
  [".pdf", ".png", ".jpg", ".jpeg"]

/-- The image-producing step of `run_doc_vqa`: branch on
`Path(file_path).suffix.lower()`, rasterize the requested PDF page with
`convert_pdf_to_image`, or open the image file with `Image.open`. -/
def loadPageImage {Img : Type} (fs : FileSystem Img) (file_path : String)
    (page_no : Int) : Except PyError Img :=
  let extension := pyLower (pathSuffix file_path)
  if extension = ".pdf" then
    convert_pdf_to_image fs file_path page_no
  else
    match fs.openImage file_path with
    | some img => Except.ok img
    | none => Except.error PyError.imageDecodeError

/-- Embedding of `run_doc_vqa(file_path, questions, page_no, model,
processor)`: produce the page image (`loadPageImage` is the inlined
`if extension == ".pdf" ...` of the source), then run `generate`.  No
exception is caught, so any `PyError` from the image step propagates to
the caller. -/
def run_doc_vqa {Img : Type} (fs : FileSystem Img) (file_path : String)
    (questions : List String) (page_no : Int) (model : Model Img)
    (processor : Processor) : Except PyError (List (String × String)) :=
  match loadPageImage fs file_path page_no with
  | Except.ok image => Except.ok (generate model processor image questions)
  | Except.error e => Except.error e

/-- Embedding of `collect_inputs(file_obj, texts)` from `src/app.py`
(with the process-wide `MODEL`, `PROCESSOR` and the filesystem passed
explicitly): return the missing-file message when no file was uploaded;
compute `os.path.splitext(file_path)[1].lower()` and return the
invalid-type message when it is not in the allow-list; split, strip and
filter the question lines and return the empty-question message when
none remain; otherwise call `run_doc_vqa(file_path, questions,
page_no=1, ...)` and join the `"q: a"` lines with newlines.  Nothing is
caught, so a `PyError` from `run_doc_vqa` propagates. -/
def collect_inputs {Img : Type} (fs : FileSystem Img) (MODEL : Model Img)
    (PROCESSOR : Processor) (file_obj : Option String) (texts : String) :
    Except PyError String :=
  match file_obj with
  | none => Except.ok "Please upload a file first."
  | some file_path =>
    let file_ext := pyLower (splitext file_path).2
    if file_ext ∉ allowed_extensions then
      Except.ok ("Invalid file type. Please upload one of: " ++
        String.intercalate ", " allowed_extensions)
    else
      let questions := processQuestions texts
      if questions = [] then
        Except.ok "Please enter at least one question."
      else
        match run_doc_vqa fs file_path questions 1 MODEL PROCESSOR with
        | Except.ok results =>
          Except.ok (String.intercalate "\n"
            (results.map (fun qa => qa.1 ++ ": " ++ qa.2)))
        | Except.error e => Except.error e

/-- A concrete model instance used to evaluate the embedding on closed
inputs: every batch element generates the empty token sequence (which
trivially satisfies both laws of the HuggingFace contract). -/
def wModel : Model Nat where
  gen r := r.batch.map (fun _ => [])
  gen_length r := by simp
  gen_max r s hs := by
    simp at hs
    simp [hs]

/-- A concrete processor instance for closed evaluations: every token
sequence decodes to the text `"ans"`. -/
def wProc : Processor where
  decodeOne _ := "ans"

/-- A concrete filesystem for closed evaluations: one three-page PDF and
one readable image; every other path is corrupt or unreadable. -/
def wFs : FileSystem Nat where
  pdfPages f := if f = "multipage.pdf" then some [10, 20, 30] else none
  openImage f := if f = "image.png" then some 7 else none

/-! ### Helper lemmas -/

/-- When the index is in range on the non-negative side, Python indexing
returns the element at that position. -/
theorem pyGetElem_nonneg {α : Type} (l : List α) (i : Int) (h0 : 0 ≤ i)
    (hl : i < (l.length : Int)) :
    pyGetElem l i = some (l.get ⟨i.toNat, by omega⟩) := by
  have hj : (if i < 0 then i + (l.length : Int) else i) = i := if_neg (by omega)
  simp only [pyGetElem, hj]
  rw [dif_pos ⟨h0, hl⟩]

/-- When the index is negative but within range, Python indexing counts
from the end of the list. -/
theorem pyGetElem_negIdx {α : Type} (l : List α) (i : Int) (h0 : i < 0)
    (hl : -(l.length : Int) ≤ i) :
    pyGetElem l i = some (l.get ⟨(i + l.length).toNat, by omega⟩) := by
  have hj : (if i < 0 then i + (l.length : Int) else i) = i + l.length := if_pos h0
  simp only [pyGetElem, hj]
  rw [dif_pos ⟨by omega, by omega⟩]

/-- When the index is at least the length, Python indexing raises
`IndexError`. -/
theorem pyGetElem_oob {α : Type} (l : List α) (i : Int)
    (h : (l.length : Int) ≤ i) :
    pyGetElem l i = none := by
  have hj : (if i < 0 then i + (l.length : Int) else i) = i := if_neg (by omega)
  simp only [pyGetElem, hj]
  exact dif_neg (by omega)

/-- Two list extractions at propositionally equal positions agree. -/
theorem list_get_congr {α : Type} (l : List α) (i j : Nat) (hi : i < l.length)
    (hj : j < l.length) (h : i = j) : l.get ⟨i, hi⟩ = l.get ⟨j, hj⟩ := by
  subst h
  rfl

/-- The batch has one element per question. -/
theorem buildInputs_length {Img : Type} (img : Img) (qs : List String) :
    (buildInputs img qs).length = qs.length := by
  simp [buildInputs]

/-- The batch pairs the page image with each question in order. -/
theorem buildInputs_eq_map {Img : Type} (img : Img) (qs : List String) :
    buildInputs img qs = qs.map (fun q => (img, q)) := by
  induction qs with
  | nil => rfl
  | cons q t ih =>
    simp only [buildInputs, List.length_cons, List.replicate_succ,
      List.zip_cons_cons, List.map_cons] at ih ⊢
    rw [ih]

/-- The decoded answer list has one entry per question. -/
theorem decoded_length {Img : Type} (model : Model Img) (proc : Processor)
    (img : Img) (qs : List String) :
    ((model.gen (generateRequest img qs)).map proc.decodeOne).length = qs.length := by
  rw [List.length_map, model.gen_length]
  exact buildInputs_length img qs

/-- The questions of the answer set, in order, are the input questions. -/
theorem generate_map_fst {Img : Type} (model : Model Img) (proc : Processor)
    (img : Img) (qs : List String) :
    (generate model proc img qs).map Prod.fst = qs := by
  simp only [generate]
  apply List.map_fst_zip
  rw [decoded_length]

/-- A successful `run_doc_vqa` returns exactly the answer set of
`generate` on some page image. -/
theorem run_doc_vqa_ok {Img : Type} (fs : FileSystem Img) (file_path : String)
    (questions : List String) (page_no : Int) (model : Model Img)
    (proc : Processor) (results : List (String × String))
    (h : run_doc_vqa fs file_path questions page_no model proc = Except.ok results) :
    ∃ img : Img, results = generate model proc img questions := by
  unfold run_doc_vqa at h
  cases hl : loadPageImage fs file_path page_no with
  | ok img =>
    rw [hl] at h
    exact ⟨img, (Except.ok.inj h).symm⟩
  | error e =>
    rw [hl] at h
    exact absurd h (by simp)

/-! ### Claim theorems -/

/-- Claim C1: for every model, processor, page image and question list,
the answer set produced by `generate` has exactly as many entries as the
question list, and the i-th entry is exactly the pair of the i-th
question and the i-th decoded answer (order preserved end-to-end). -/
theorem generate_answer_set_aligned {Img : Type} (model : Model Img)
    (proc : Processor) (img : Img) (qs : List String) :
    (generate model proc img qs).length = qs.length ∧
    ∀ (i : Nat) (q a : String),
      (generate model proc img qs)[i]? = some (q, a) ↔
        (qs[i]? = some q ∧
          ((model.gen (generateRequest img qs)).map proc.decodeOne)[i]? = some a) := by
  constructor
  · simp only [generate, List.length_zip, decoded_length, Nat.min_self]
  · intro i q a
    simp only [generate]
    exact List.getElem?_zip_eq_some

/-- Witness for C1: on the concrete instance, two questions give an
answer set of length two whose first entry pairs the first question with
the first decoded answer. -/
theorem generate_answer_set_aligned_w :
    (generate wModel wProc 0 ["Q1", "Q2"]).length = 2 ∧
    (generate wModel wProc 0 ["Q1", "Q2"])[0]? = some ("Q1", "ans") := by
  have h := generate_answer_set_aligned wModel wProc 0 ["Q1", "Q2"]
  exact ⟨h.1.trans (by decide), (h.2 0 "Q1" "ans").mpr ⟨by decide, by decide⟩⟩

/-- Claim C3: for a readable PDF and a 1-based page number within the
page count, `convert_pdf_to_image` returns the rendered page at 0-based
index `page_no - 1`. -/
theorem convert_pdf_to_image_selects_page {Img : Type} (fs : FileSystem Img)
    (filename : String) (pages : List Img) (page_no : Int)
    (hp : fs.pdfPages filename = some pages)
    (h1 : 1 ≤ page_no) (h2 : page_no ≤ (pages.length : Int)) :
    convert_pdf_to_image fs filename page_no =
      Except.ok (pages.get ⟨(page_no - 1).toNat, by omega⟩) := by
  simp only [convert_pdf_to_image, hp]
  rw [pyGetElem_nonneg pages (page_no - 1) (by omega) (by omega)]

/-- Witness for C3 (Scenario 5): on a three-page PDF, `page_no = 1`
returns the page at index 0, not pages 1 or 2. -/
theorem convert_pdf_to_image_selects_page_w :
    convert_pdf_to_image wFs "multipage.pdf" 1 = Except.ok 10 := by
  rw [convert_pdf_to_image_selects_page wFs "multipage.pdf" [10, 20, 30] 1 rfl
    (by decide) (by decide)]
  rfl

/-- Claim C4: for a readable PDF, `convert_pdf_to_image` fails (with the
IndexError the spec calls `PageOutOfRangeError`) whenever `page_no`
exceeds the number of rendered pages. -/
theorem convert_pdf_to_image_out_of_range {Img : Type} (fs : FileSystem Img)
    (filename : String) (pages : List Img) (page_no : Int)
    (hp : fs.pdfPages filename = some pages)
    (h : (pages.length : Int) < page_no) :
    convert_pdf_to_image fs filename page_no = Except.error PyError.indexError := by
  simp only [convert_pdf_to_image, hp]
  rw [pyGetElem_oob pages (page_no - 1) (by omega)]

/-- Witness for C4: page 4 of a three-page PDF fails. -/
theorem convert_pdf_to_image_out_of_range_w :
    convert_pdf_to_image wFs "multipage.pdf" 4 = Except.error PyError.indexError :=
  convert_pdf_to_image_out_of_range wFs "multipage.pdf" [10, 20, 30] 4 rfl (by decide)

/-- Claim C10: on a readable PDF with at least one page, `page_no = 0`
does not fail but returns the last rendered page (Python index `-1`),
and any `page_no ≤ 0` whose Python index `page_no - 1` is within range
selects the page counted from the end. -/
theorem convert_pdf_to_image_negative_page_no {Img : Type} (fs : FileSystem Img)
    (filename : String) (pages : List Img)
    (hp : fs.pdfPages filename = some pages) (hne : pages ≠ []) :
    convert_pdf_to_image fs filename 0 = Except.ok (pages.getLast hne) ∧
    ∀ (page_no : Int) (h1 : page_no ≤ 0) (h2 : 1 - (pages.length : Int) ≤ page_no),
      convert_pdf_to_image fs filename page_no =
        Except.ok (pages.get ⟨(page_no - 1 + pages.length).toNat, by omega⟩) := by
  have hlen : 0 < pages.length := List.length_pos.mpr hne
  have key : ∀ (page_no : Int) (hA : page_no ≤ 0)
      (hB : 1 - (pages.length : Int) ≤ page_no),
      convert_pdf_to_image fs filename page_no =
        Except.ok (pages.get ⟨(page_no - 1 + pages.length).toNat, by omega⟩) := by
    intro p hA hB
    simp only [convert_pdf_to_image, hp]
    rw [pyGetElem_negIdx pages (p - 1) (by omega) (by omega)]
  refine ⟨?_, key⟩
  rw [key 0 (by omega) (by omega), List.getLast_eq_getElem]
  exact congrArg Except.ok (list_get_congr pages _ _ (by omega) (by omega) (by omega))

/-- Witness for C10: on the three-page PDF, `page_no = 0` returns the
last page and `page_no = -2` returns the first page. -/
theorem convert_pdf_to_image_negative_page_no_w :
    convert_pdf_to_image wFs "multipage.pdf" 0 = Except.ok 30 ∧
    convert_pdf_to_image wFs "multipage.pdf" (-2) = Except.ok 10 := by
  have h := convert_pdf_to_image_negative_page_no wFs "multipage.pdf" [10, 20, 30]
    rfl (by decide)
  constructor
  · rw [h.1]
    rfl
  · rw [h.2 (-2) (by decide) (by decide)]
    rfl

/-- Claim C5: whenever the lowercased `os.path.splitext` extension of the
uploaded path is outside the allow-list, `collect_inputs` returns exactly
the invalid-type message enumerating the four allowed extensions,
regardless of the question text. -/
theorem collect_inputs_invalid_type {Img : Type} (fs : FileSystem Img)
    (model : Model Img) (proc : Processor) (path texts : String)
    (h : pyLower (splitext path).2 ∉ allowed_extensions) :
    collect_inputs fs model proc (some path) texts =
      Except.ok "Invalid file type. Please upload one of: .pdf, .png, .jpg, .jpeg" := by
  simp only [collect_inputs]
  rw [if_pos h]
  rfl

/-- Witness for C5 (Scenario 3): a `.docx` upload gets the invalid-type
message. -/
theorem collect_inputs_invalid_type_w :
    collect_inputs wFs wModel wProc (some "scan.docx") "Q?" =
      Except.ok "Invalid file type. Please upload one of: .pdf, .png, .jpg, .jpeg" :=
  collect_inputs_invalid_type wFs wModel wProc "scan.docx" "Q?" (by decide)

/-- Claim C6: with no file reference, `collect_inputs` returns exactly
the missing-file message for every question text. -/
theorem collect_inputs_missing_file {Img : Type} (fs : FileSystem Img)
    (model : Model Img) (proc : Processor) (texts : String) :
    collect_inputs fs model proc none texts = Except.ok "Please upload a file first." :=
  rfl

/-- Witness for C6 (Scenario 2). -/
theorem collect_inputs_missing_file_w :
    collect_inputs wFs wModel wProc none "What is the total?" =
      Except.ok "Please upload a file first." :=
  collect_inputs_missing_file wFs wModel wProc "What is the total?"

/-- Claim C7: with an allowed extension and a question text whose lines,
after stripping and discarding blanks, leave no questions, the validator
returns exactly the empty-question message. -/
theorem collect_inputs_no_questions {Img : Type} (fs : FileSystem Img)
    (model : Model Img) (proc : Processor) (path texts : String)
    (hext : pyLower (splitext path).2 ∈ allowed_extensions)
    (hq : processQuestions texts = []) :
    collect_inputs fs model proc (some path) texts =
      Except.ok "Please enter at least one question." := by
  simp [collect_inputs, hext, hq]

/-- Witness for C7 (Scenario 4): `"   \n\n"` on a `.png` upload gets the
empty-question message. -/
theorem collect_inputs_no_questions_w :
    collect_inputs wFs wModel wProc (some "image.png") "   \n\n" =
      Except.ok "Please enter at least one question." :=
  collect_inputs_no_questions wFs wModel wProc "image.png" "   \n\n"
    (by decide) (by decide)

/-- Claim C8: on every successful request (valid extension, at least one
question, `run_doc_vqa` succeeds), the display string is the
newline-join of one `"question: answer"` line per entry, and the entries
carry exactly the input questions in input order. -/
theorem collect_inputs_success_format {Img : Type} (fs : FileSystem Img)
    (model : Model Img) (proc : Processor) (path texts : String)
    (results : List (String × String))
    (hext : pyLower (splitext path).2 ∈ allowed_extensions)
    (hne : processQuestions texts ≠ [])
    (hrun : run_doc_vqa fs path (processQuestions texts) 1 model proc =
      Except.ok results) :
    collect_inputs fs model proc (some path) texts =
      Except.ok (String.intercalate "\n"
        (results.map (fun qa => qa.1 ++ ": " ++ qa.2))) ∧
    results.map Prod.fst = processQuestions texts := by
  constructor
  · simp [collect_inputs, hext, hne, hrun]
  · obtain ⟨img, hres⟩ :=
      run_doc_vqa_ok fs path (processQuestions texts) 1 model proc results hrun
    rw [hres]
    exact generate_map_fst model proc img (processQuestions texts)

/-- Witness for C8: two questions against the readable image produce the
two expected joined lines in order. -/
theorem collect_inputs_success_format_w :
    collect_inputs wFs wModel wProc (some "image.png") "Q1\nQ2" =
      Except.ok "Q1: ans\nQ2: ans" ∧
    ([("Q1", "ans"), ("Q2", "ans")] : List (String × String)).map Prod.fst =
      processQuestions "Q1\nQ2" := by
  have h := collect_inputs_success_format wFs wModel wProc "image.png" "Q1\nQ2"
    [("Q1", "ans"), ("Q2", "ans")] (by decide) (by decide) (by rfl)
  exact ⟨h.1.trans (by rfl), h.2⟩

/-- Claim C9: every inference call submits to the model's generation
procedure the batch that pairs the page image with each question, with
the fixed `max_new_tokens = 1028`; consequently every generated sequence
is at most 1028 tokens long. -/
theorem generate_submits_max_new_tokens_1028 {Img : Type} (model : Model Img)
    (proc : Processor) (img : Img) (qs : List String) :
    (generateRequest img qs).maxNewTokens = 1028 ∧
    (generateRequest img qs).batch = qs.map (fun q => (img, q)) ∧
    generate model proc img qs =
      qs.zip ((model.gen (generateRequest img qs)).map proc.decodeOne) ∧
    ∀ s ∈ model.gen (generateRequest img qs), s.length ≤ 1028 :=
  ⟨rfl, buildInputs_eq_map img qs, rfl, fun s hs => model.gen_max _ s hs⟩

/-- Witness for C9: on the concrete instance the request really carries
1028 and the (empty) generated sequence respects the cap. -/
theorem generate_submits_max_new_tokens_1028_w :
    (generateRequest (0 : Nat) ["Q"]).maxNewTokens = 1028 ∧
    ([] : List Nat).length ≤ 1028 := by
  have h := generate_submits_max_new_tokens_1028 wModel wProc 0 ["Q"]
  exact ⟨h.1, h.2.2.2 [] (by decide)⟩

/-- Counterexample to C2 as stated: on a corrupt or unreadable image file
the code does not return a user-facing string at all — the PIL exception
propagates out of `collect_inputs` uncaught. -/
theorem collect_inputs_decode_error_cex :
    collect_inputs wFs wModel wProc (some "bad.png") "What is this?" =
      Except.error PyError.imageDecodeError := by
  rfl

/-- Amended C2: a decode error (corrupt file or out-of-range PDF page)
inside `run_doc_vqa` propagates out of `collect_inputs` unchanged as an
exception; it is never caught, never converted to a user-facing string
and never silently turned into an empty result. -/
theorem collect_inputs_propagates_decode_errors {Img : Type} (fs : FileSystem Img)
    (model : Model Img) (proc : Processor) (path texts : String) (e : PyError)
    (hext : pyLower (splitext path).2 ∈ allowed_extensions)
    (hne : processQuestions texts ≠ [])
    (herr : run_doc_vqa fs path (processQuestions texts) 1 model proc =
      Except.error e) :
    collect_inputs fs model proc (some path) texts = Except.error e := by
  simp [collect_inputs, hext, hne, herr]

/-- Witness for the amended C2: the corrupt image's exception reaches the
caller of `collect_inputs`. -/
theorem collect_inputs_propagates_decode_errors_w :
    collect_inputs wFs wModel wProc (some "corrupt.jpg") "Q?" =
      Except.error PyError.imageDecodeError :=
  collect_inputs_propagates_decode_errors wFs wModel wProc "corrupt.jpg" "Q?"
    PyError.imageDecodeError (by decide) (by decide) (by rfl)
